import Mathlib

/-!
Shallow embedding of the HttpBehavior authentication/HTTP core of this
repository (src/http-behavior.js together with src/errors/auth.js), and
proofs about it.

Modelling conventions, used throughout:
- a JavaScript field that may be undefined or null is an `Option`;
- string truthiness is nonemptiness (`truthyS`); the defaulting idiom
  `a || b` is `jsOrS` (strings) and `jsOrNat` (numbers, 0 is falsy);
- a thrown JavaScript value is a `JsError`;
- a promise chain is embedded as a staged pure function returning the
  final mutable state together with the outcome that the chain delivers
  to its callers once it settles.
-/

/-- JS string truthiness: a string is truthy iff it is nonempty. -/
def truthyS : Option String → Bool
  | none => false
  | some s => s.length != 0

/-- JS `a || b` over possibly-absent strings. -/
def jsOrS (a b : Option String) : Option String :=
  if truthyS a then a else b

/-- JS `(e && e.status) || d` over possibly-absent numbers (0 is falsy). -/
def jsOrNat (a : Option Nat) (d : Nat) : Nat :=
  match a with
  | some n => if n != 0 then n else d
  | none => d

/-- A parsed JSON server body, as far as the error module reads it
(src/errors/auth.js reads only `message` and `errorMessage`). -/
structure ServerBody where
  message : Option String := none
  errorMessage : Option String := none
deriving DecidableEq

/-- The argument object handed to the AuthError helpers: either a parsed
server body (for `fromHTTP`) or the `{ status, response }` wrapper built in
`_refreshToken` (for `TokenRefreshFailed`).  `extractMessage` reads
`errorMessage` and `message`; `extractTokenState` reads `response.message`;
`TokenRefreshFailed` reads `status`. -/
structure ErrObj where
  message : Option String := none
  errorMessage : Option String := none
  status : Option Nat := none
  response : Option ServerBody := none
deriving DecidableEq

/-- The AuthError value (src/errors/auth.js, class AuthError).  The constant
`name`/`type` fields of the source class are elided; `state` is the extra
property attached by `TokenRefreshFailed`. -/
structure AuthError where
  code : String
  message : String
  status : Option Nat := none
  retry : Bool := false
  state : Option String := none
deriving DecidableEq

/-- The options object accepted by the AuthError constructor. -/
structure AuthErrorOptions where
  code : Option String := none
  message : Option String := none
  status : Option Nat := none
  retry : Option Bool := none
deriving DecidableEq

namespace AuthError

/-- `AuthError.validateProps`: throws `TypeError` (modelled as `.error`) when
`code` or `message` is falsy; checked in that order. -/
def validateProps (o : AuthErrorOptions) : Except String Unit :=
  if !truthyS o.code then .error "Missing code"
  else if !truthyS o.message then .error "Missing message"
  else .ok ()

/-- The AuthError constructor: validate, then assign the properties
(`retry: options.retry || false`). -/
def make (o : AuthErrorOptions) : Except String AuthError :=
  match validateProps o with
  | .error m => .error m
  | .ok _ =>
      .ok { code := o.code.getD "", message := o.message.getD "",
            status := o.status, retry := o.retry.getD false, state := none }

/-- `AuthError.extractMessage`: `error.errorMessage || error.message || null`. -/
def extractMessage : Option ErrObj → Option String
  | none => none
  | some e =>
      if truthyS e.errorMessage then e.errorMessage
      else if truthyS e.message then e.message
      else none

/-- `AuthError.extractTokenState`:
`error && error.response && error.response.message === "refresh_token_expired"
  ? "expired" : "failed"`. -/
def extractTokenState : Option ErrObj → String
  | none => "failed"
  | some e =>
      match e.response with
      | none => "failed"
      | some r => if r.message == some "refresh_token_expired" then "expired" else "failed"

/-- `AuthError.status` static table: entries for 401 and 403 as
(code, fallback message, retry). -/
def statusTable (status : Nat) : Option (String × String × Bool) :=
  if status = 401 then some ("UNAUTHORIZED", "Unauthorized", true)
  else if status = 403 then some ("FORBIDDEN", "Forbidden", false)
  else none

/-- The specific-BAPI-message guard in `fromHTTP`:
`error && error.message === "access_token_expired"`. -/
def signalsExpired : Option ErrObj → Bool
  | none => false
  | some e => e.message == some "access_token_expired"

/-- `AuthError.fromHTTP(response, error)`; only `response.status` is read
from the response. -/
def fromHTTP (status : Nat) (error : Option ErrObj) : Except String AuthError :=
  let message := extractMessage error
  if status = 401 ∧ signalsExpired error = true then
    make { code := some "SESSION_EXPIRED", message := message,
           status := some status, retry := some true }
  else
    match statusTable status with
    | some cfg =>
        make { code := some cfg.1, message := jsOrS message (some cfg.2.1),
               retry := some cfg.2.2, status := some status }
    | none =>
        let cr : String × Bool :=
          if status = 400 then ("BAD_REQUEST", false)
          else if status = 404 then ("NOT_FOUND", false)
          else if 500 ≤ status then ("SERVER_ERROR", true)
          else ("HTTP_ERROR", false)
        make { code := some cr.1,
               message := jsOrS message (some ("HTTP " ++ toString status)),
               status := some status, retry := some cr.2 }

/-- `AuthError.TokenRefreshFailed(error)`: build the error, then attach the
`state` sub-classification. -/
def TokenRefreshFailed (error : Option ErrObj) : Except String AuthError :=
  match make { code := some "TOKEN_REFRESH_FAILED",
               message := jsOrS (extractMessage error) (some "Token refresh failed"),
               status := some (jsOrNat (error.bind (·.status)) 401),
               retry := some false } with
  | .ok e => .ok { e with state := some (extractTokenState error) }
  | .error m => .error m

end AuthError

/-- Modelled from the spec words of claim C6: the expected classification of
`fromStatus(status, serverBody)`.  401 maps to SESSION_EXPIRED (retryable)
when the body signals the expired-access-token condition, else UNAUTHORIZED
(retryable); 403 FORBIDDEN, 400 BAD_REQUEST, 404 NOT_FOUND (all not
retryable); at least 500 SERVER_ERROR (retryable); anything else HTTP_ERROR
(not retryable).  The message prefers the server-supplied
message/errorMessage fields over the generic per-status fallback text. -/
def specFromStatus (status : Nat) (body : Option ErrObj) : AuthError :=
  let m := AuthError.extractMessage body
  if status = 401 then
    if AuthError.signalsExpired body then
      { code := "SESSION_EXPIRED", message := m.getD "", status := some status, retry := true }
    else
      { code := "UNAUTHORIZED", message := m.getD "Unauthorized",
        status := some status, retry := true }
  else if status = 403 then
    { code := "FORBIDDEN", message := m.getD "Forbidden", status := some status, retry := false }
  else if status = 400 then
    { code := "BAD_REQUEST", message := m.getD ("HTTP " ++ toString status),
      status := some status, retry := false }
  else if status = 404 then
    { code := "NOT_FOUND", message := m.getD ("HTTP " ++ toString status),
      status := some status, retry := false }
  else if 500 ≤ status then
    { code := "SERVER_ERROR", message := m.getD ("HTTP " ++ toString status),
      status := some status, retry := true }
  else
    { code := "HTTP_ERROR", message := m.getD ("HTTP " ++ toString status),
      status := some status, retry := false }

section TaxonomyLemmas

/-- Whatever `extractMessage` yields is a nonempty string. -/
theorem extractMessage_truthy (b : Option ErrObj) (s : String)
    (h : AuthError.extractMessage b = some s) : s.length ≠ 0 := by
  cases b with
  | none => simp [AuthError.extractMessage] at h
  | some e =>
      unfold AuthError.extractMessage at h
      by_cases h1 : truthyS e.errorMessage
      · simp [h1] at h
        rw [h] at h1
        simpa [truthyS] using h1
      · by_cases h2 : truthyS e.message
        · simp [h1, h2] at h
          rw [h] at h2
          simpa [truthyS] using h2
        · simp [h1, h2] at h

/-- Either no message is extracted, or the extracted message is nonempty. -/
theorem extractMessage_cases (b : Option ErrObj) :
    AuthError.extractMessage b = none ∨
      ∃ s, AuthError.extractMessage b = some s ∧ s.length ≠ 0 := by
  cases h : AuthError.extractMessage b with
  | none => exact Or.inl rfl
  | some s => exact Or.inr ⟨s, rfl, extractMessage_truthy b s h⟩

/-- When the body signals the expired-access-token condition, the extracted
message is a nonempty string. -/
theorem signalsExpired_extract (b : Option ErrObj)
    (h : AuthError.signalsExpired b = true) :
    ∃ s, AuthError.extractMessage b = some s ∧ s.length ≠ 0 := by
  cases b with
  | none => simp [AuthError.signalsExpired] at h
  | some e =>
      have hm : e.message = some "access_token_expired" := by
        simpa [AuthError.signalsExpired] using h
      by_cases h1 : truthyS e.errorMessage
      · cases hEM : e.errorMessage with
        | none => rw [hEM] at h1; simp [truthyS] at h1
        | some t =>
            rw [hEM] at h1
            refine ⟨t, ?_, by simpa [truthyS] using h1⟩
            simp [AuthError.extractMessage, hEM, h1]
      · refine ⟨"access_token_expired", ?_, by decide⟩
        have h2 : truthyS (some "access_token_expired") = true := by decide
        simp [AuthError.extractMessage, hm, h1, h2]

/-- The constructor succeeds whenever code and message are nonempty. -/
theorem make_ok (c m : String) (st : Option Nat) (r : Option Bool)
    (hc : c.length ≠ 0) (hm : m.length ≠ 0) :
    AuthError.make { code := some c, message := some m, status := st, retry := r } =
      .ok { code := c, message := m, status := st, retry := r.getD false, state := none } := by
  have hc' : truthyS (some c) = true := by simp [truthyS, hc]
  have hm' : truthyS (some m) = true := by simp [truthyS, hm]
  simp [AuthError.make, AuthError.validateProps, hc', hm']

/-- Falling back from the extracted message keeps the message nonempty. -/
theorem extract_getD_len (b : Option ErrObj) (f : String) (hf : f.length ≠ 0) :
    ((AuthError.extractMessage b).getD f).length ≠ 0 := by
  rcases extractMessage_cases b with h | ⟨s, h, hlen⟩
  · simp [h, hf]
  · simp [h, hlen]

/-- `message || fallback` is exactly `getD` here, because the extracted
message is never an empty string. -/
theorem jsOrS_extract (b : Option ErrObj) (f : String) :
    jsOrS (AuthError.extractMessage b) (some f) =
      some ((AuthError.extractMessage b).getD f) := by
  rcases extractMessage_cases b with h | ⟨s, h, hlen⟩
  · simp [jsOrS, h, truthyS]
  · simp [jsOrS, h, truthyS, hlen]

theorem http_fallback_len (status : Nat) : ("HTTP " ++ toString status).length ≠ 0 := by
  rw [String.length_append]
  have h5 : ("HTTP ").length = 5 := by decide
  omega

/-- Combination step used by every table/fallback branch of `fromHTTP`. -/
theorem make_table (c f : String) (r : Bool) (st : Nat) (b : Option ErrObj)
    (hc : c.length ≠ 0) (hf : f.length ≠ 0) :
    AuthError.make { code := some c,
                     message := jsOrS (AuthError.extractMessage b) (some f),
                     retry := some r, status := some st } =
      .ok { code := c, message := (AuthError.extractMessage b).getD f,
            status := some st, retry := r, state := none } := by
  rw [jsOrS_extract, make_ok c _ (some st) (some r) hc (extract_getD_len b f hf)]
  rfl

/-- `fromHTTP` always succeeds and classifies exactly as the spec mapping
describes. -/
theorem fromHTTP_eq (status : Nat) (b : Option ErrObj) :
    AuthError.fromHTTP status b = .ok (specFromStatus status b) := by
  by_cases h401 : status = 401
  · subst h401
    by_cases hsig : AuthError.signalsExpired b = true
    · obtain ⟨s, hs, hlen⟩ := signalsExpired_extract b hsig
      simp only [AuthError.fromHTTP, specFromStatus, hsig, and_true, if_true,
        if_pos rfl, hs]
      rw [make_ok _ _ _ _ (by decide) hlen]
      simp [hs]
    · simp only [AuthError.fromHTTP, specFromStatus, AuthError.statusTable, hsig]
      simp
      exact make_table "UNAUTHORIZED" "Unauthorized" true 401 b (by decide) (by decide)
  · have hne : ¬(status = 401 ∧ AuthError.signalsExpired b = true) := by
      intro hcon; exact h401 hcon.1
    by_cases h403 : status = 403
    · subst h403
      simp only [AuthError.fromHTTP, specFromStatus, AuthError.statusTable]
      simp
      exact make_table "FORBIDDEN" "Forbidden" false 403 b (by decide) (by decide)
    · by_cases h400 : status = 400
      · subst h400
        simp only [AuthError.fromHTTP, specFromStatus, AuthError.statusTable]
        simp
        exact make_table "BAD_REQUEST" _ false 400 b (by decide) (http_fallback_len 400)
      · by_cases h404 : status = 404
        · subst h404
          simp only [AuthError.fromHTTP, specFromStatus, AuthError.statusTable]
          simp
          exact make_table "NOT_FOUND" _ false 404 b (by decide) (http_fallback_len 404)
        · by_cases h500 : 500 ≤ status
          · simp only [AuthError.fromHTTP, specFromStatus, AuthError.statusTable,
              if_neg hne, if_neg h401, if_neg h403, if_neg h400, if_neg h404,
              if_pos h500]
            exact make_table "SERVER_ERROR" _ true status b (by decide)
              (http_fallback_len status)
          · simp only [AuthError.fromHTTP, specFromStatus, AuthError.statusTable,
              if_neg hne, if_neg h401, if_neg h403, if_neg h400, if_neg h404,
              if_neg h500]
            exact make_table "HTTP_ERROR" _ false status b (by decide)
              (http_fallback_len status)

/-- `TokenRefreshFailed` always succeeds and carries exactly this shape. -/
theorem tokenRefreshFailed_eq (e : Option ErrObj) :
    AuthError.TokenRefreshFailed e =
      .ok { code := "TOKEN_REFRESH_FAILED",
            message := (AuthError.extractMessage e).getD "Token refresh failed",
            status := some (jsOrNat (e.bind (·.status)) 401),
            retry := false,
            state := some (AuthError.extractTokenState e) } := by
  unfold AuthError.TokenRefreshFailed
  rw [jsOrS_extract, make_ok _ _ _ _ (by decide)
    (extract_getD_len e _ (by decide))]
  rfl

end TaxonomyLemmas

/-! ## Thrown values and session data (src/http-behavior.js) -/

/-- A thrown JavaScript value as the behavior can produce it. -/
inductive JsError where
  /-- a thrown `AuthError` (classified) -/
  | auth (e : AuthError)
  /-- a `TypeError` (failed constructor validation, or a property access on
  undefined) -/
  | typeThrow (m : String)
  /-- the rejection of `response.json()` on a malformed body -/
  | jsonParse
  /-- a rejected transport call (`fetch` itself failed) -/
  | transport (m : String)
  /-- `new Error(m)` -/
  | plain (m : String)
deriving DecidableEq

/-- JS truthiness of `err.retry`: only an AuthError carries the flag, on
every other thrown value the property is absent and reads falsy. -/
def JsError.retryable : JsError → Bool
  | .auth e => e.retry
  | _ => false

/-- Constructing and throwing an AuthError: if the constructor validation
throws, that `TypeError` is what propagates instead. -/
def throwNew (o : AuthErrorOptions) : JsError :=
  match AuthError.make o with
  | .ok e => .auth e
  | .error m => .typeThrow m

/-- The `tokens` record of a stored or in-memory user. -/
structure Tokens where
  access : Option String := none
  refresh : Option String := none
deriving DecidableEq

/-- The persisted `loggedInUser` record (the shape `_storeUser` writes and
`_getStoredUser` reads back; all fields may be absent). -/
structure StoredUser where
  id_user : Option String := none
  name : Option String := none
  email : Option String := none
  network : Option String := none
  tokens : Option Tokens := none
deriving DecidableEq

/-- The in-memory `loggedInUser` object.  The opaque `subscription` payload
is carried as a string. -/
structure User where
  isLoggedIn : Bool := true
  id_user : Option String := none
  name : Option String := none
  email : Option String := none
  network : Option String := none
  subscription : Option String := none
  tokens : Option Tokens := none
deriving DecidableEq

/-- The parsed body of a successful refresh/login response, as read by
`_handleLoginSuccess` (which dereferences `userData.tokens`, so the tokens
record is required here; a body without it would throw inside the chain and
reach the same catch/finally stages as any other failure). -/
structure UserData where
  id_user : Option String := none
  name : Option String := none
  email : Option String := none
  network : Option String := none
  subscription : Option String := none
  tokens : Tokens := {}
deriving DecidableEq

/-- Per-service configuration: `base` maps environment names to base URLs
(`base` itself may be absent). -/
structure ServiceCfg where
  base : Option (List (String × String)) := none
deriving DecidableEq

/-- The external `apiConfig` (`_externalConfig`): `env` plus the service
table (`services` may be absent; `actions` is not read by any modelled
operation and is elided). -/
structure Config where
  env : String := ""
  services : Option (List (String × ServiceCfg)) := none
deriving DecidableEq

/-- The mutable state of the behavior object that the modelled operations
read and write: the in-memory user, the persisted record (none = key
absent from storage), the in-flight refresh handle `_refreshPromise`
(identified by a promise id), a counter of transport-level refresh calls
issued, the id supply, and the fired Polymer events. -/
structure BehaviorState where
  loggedInUser : Option User := none
  storedUser : Option StoredUser := none
  refreshPromise : Option Nat := none
  refreshFetchCount : Nat := 0
  nextPid : Nat := 0
  events : List String := []
deriving DecidableEq

/-- `storedUser.tokens && storedUser.tokens.refresh` (truthy). -/
def hasRefreshTok (u : StoredUser) : Bool :=
  match u.tokens with
  | some t => truthyS t.refresh
  | none => false

/-- `_clearStoredUser`: remove the persisted record and null the in-memory
user. -/
def clearStoredUser (s : BehaviorState) : BehaviorState :=
  { s with storedUser := none, loggedInUser := none }

/-- `_handleLoginSuccess(userData, isUserInitiated)`: build the user object
(`network: userData.network || "email"`), persist the essential fields,
update the in-memory user, fire the login events. -/
def handleLoginSuccess (s : BehaviorState) (u : UserData) (isUserInitiated : Bool) :
    BehaviorState :=
  let user : User :=
    { isLoggedIn := true, id_user := u.id_user, name := u.name, email := u.email,
      network := if truthyS u.network then u.network else some "email",
      subscription := u.subscription,
      tokens := some { access := u.tokens.access, refresh := u.tokens.refresh } }
  let storage : StoredUser :=
    { id_user := user.id_user, tokens := user.tokens,
      name := user.name, email := user.email, network := user.network }
  { s with storedUser := some storage, loggedInUser := some user,
           events := s.events ++
             (if isUserInitiated then ["login-success", "login-request-success"]
              else ["login-success"]) }

/-! ## The refresh coordinator (`_refreshToken`, lines 434-495) -/

/-- What the synchronous prefix of `_refreshToken` hands back to its
caller: the already-pending promise, a freshly created one (a transport
call was just issued), or an immediate rejection. -/
inductive RefreshCallResult where
  | joined (pid : Nat)
  | started (pid : Nat)
  | rejected (e : JsError)
deriving DecidableEq

/-- Bool test used to state that a call did not reuse a pending promise. -/
def RefreshCallResult.isJoined : RefreshCallResult → Bool
  | .joined _ => true
  | _ => false

/-- `service.base && service.base[env]` (truthy): the resolved base URL,
if any. -/
def resolveBase (svc : ServiceCfg) (env : String) : Option String :=
  match svc.base with
  | none => none
  | some b =>
      match b.lookup env with
      | none => none
      | some u => if u.length = 0 then none else some u

/-- Resolution of the refresh URL from the external configuration
(lines 446-458): require a config with a `services` table, take the first
service, require a truthy `base[env]` entry. -/
def resolveRefreshURL (cfg : Option Config) : Except JsError String :=
  match cfg with
  | none => .error (.plain "External configuration required for token refresh")
  | some c =>
      match c.services with
      | none => .error (.plain "External configuration required for token refresh")
      | some svcs =>
          match svcs.head? with
          | none => .error (.plain "Service configuration not found for token refresh")
          | some (_, svc) =>
              match resolveBase svc c.env with
              | none => .error (.plain "Service configuration not found for token refresh")
              | some u => .ok (u ++ "/user/refresh")

/-- The synchronous prefix of `_refreshToken`: return the pending promise
if one exists; otherwise check the persisted refresh token and the
configuration; otherwise assign `_refreshPromise` and issue the transport
call (counted in `refreshFetchCount`). -/
def callRefreshToken (cfg : Option Config) (s : BehaviorState) :
    BehaviorState × RefreshCallResult :=
  match s.refreshPromise with
  | some pid => (s, .joined pid)
  | none =>
      if hasRefreshTok (s.storedUser.getD {}) then
        match resolveRefreshURL cfg with
        | .error e => (s, .rejected e)
        | .ok _url =>
            ({ s with refreshPromise := some s.nextPid,
                      nextPid := s.nextPid + 1,
                      refreshFetchCount := s.refreshFetchCount + 1 },
             .started s.nextPid)
      else (s, .rejected (.plain "No refresh token available"))

/-- `n` callers invoking `_refreshToken` back to back on the same event
loop (no settlement in between). -/
def runConcurrentRefresh (cfg : Option Config) :
    Nat → BehaviorState → BehaviorState × List RefreshCallResult
  | 0, s => (s, [])
  | n + 1, s =>
      let p := callRefreshToken cfg s
      let q := runConcurrentRefresh cfg n p.1
      (q.1, p.2 :: q.2)

/-- The settlement of the refresh transport call: either a response (the
`json` fields give the parsed body per branch, `none` meaning the body did
not parse) or a rejected `fetch`. -/
structure RefreshResp where
  status : Nat
  errJson : Option ServerBody := none
  okJson : Option UserData := none
deriving DecidableEq

/-- `response.ok` of the fetch API: status in 200..299. -/
def respOk (status : Nat) : Bool :=
  decide (200 ≤ status) && decide (status ≤ 299)

inductive FetchOutcome where
  | resp (r : RefreshResp)
  | netError (m : String)
deriving DecidableEq

/-- `p.catch(h)` over embedded promise outcomes. -/
def exceptCatch {α : Type} (p : Except JsError α) (h : JsError → Except JsError α) :
    Except JsError α :=
  match p with
  | .ok a => .ok a
  | .error e => h e

/-- Throwing `AuthError.TokenRefreshFailed(o)`. -/
def tokenRefreshThrow (o : Option ErrObj) : JsError :=
  match AuthError.TokenRefreshFailed o with
  | .ok e => .auth e
  | .error m => .typeThrow m

/-- The non-ok branch of the `_refreshToken` chain (lines 466-477):

`response.json().then(errorData => { throw TokenRefreshFailed({ status,
response: errorData }) }).catch(() => { throw TokenRefreshFailed({ status })
})`.

The `.catch` is chained after the `.then`, so it observes the rejection
produced by the `.then` handler as well as the JSON-parse rejection, and its
handler ignores the incoming error. -/
def refreshFailBranch (status : Nat) (errJson : Option ServerBody) :
    Except JsError UserData :=
  exceptCatch
    (match errJson with
     | some body =>
         .error (tokenRefreshThrow (some { status := some status, response := some body }))
     | none => .error .jsonParse)
    (fun _ => .error (tokenRefreshThrow (some { status := some status })))

deriving instance DecidableEq for Except

/-- Observable steps of the settling refresh chain, in order. -/
inductive RefreshEvent where
  /-- `_clearStoredUser()` ran in the `.catch` stage -/
  | sessionCleared
  /-- `this._refreshPromise = null` ran in the `.finally` callback -/
  | handleCleared
  /-- the promise held by every caller settled with this outcome -/
  | settled (o : Except JsError UserData)
deriving DecidableEq

structure SettleResult where
  state : BehaviorState
  trace : List RefreshEvent
  outcome : Except JsError UserData
deriving DecidableEq

/-- The `.then`/`.then`/`.catch`/`.finally` chain assigned to
`_refreshPromise` (lines 460-492), settling once the transport call
finishes: classify a non-2xx response, or parse the body and run
`_handleLoginSuccess`; on any failure clear the stored user and rethrow;
in all cases null the in-flight handle in the `.finally` callback, which
runs before the promise the callers hold settles. -/
def settleRefresh (s : BehaviorState) (f : FetchOutcome) : SettleResult :=
  let stage1 : BehaviorState × Except JsError UserData :=
    match f with
    | .netError m => (s, .error (.transport m))
    | .resp r =>
        if respOk r.status then
          match r.okJson with
          | none => (s, .error .jsonParse)
          | some u => (handleLoginSuccess s u false, .ok u)
        else (s, refreshFailBranch r.status r.errJson)
  let stage2 : BehaviorState × List RefreshEvent × Except JsError UserData :=
    match stage1 with
    | (s1, .ok u) => (s1, [], .ok u)
    | (s1, .error e) => (clearStoredUser s1, [.sessionCleared], .error e)
  { state := { stage2.1 with refreshPromise := none },
    trace := stage2.2.1 ++ [.handleCleared, .settled stage2.2.2],
    outcome := stage2.2.2 }

/-! ## The request core (`_http.request`, lines 399-432) -/

/-- The headers object of a request options record (absent until something
creates it). -/
structure ReqHeaders where
  authorization : Option String := none
  contentType : Option String := none
deriving DecidableEq

/-- A request body: a string, or a non-string object (opaque). -/
inductive ReqBody where
  | strB (s : String)
  | objB
deriving DecidableEq

/-- The options object handed to `_http.request`.  `skipAuth` is carried
because callers pass it (README, tests); whether the source reads it is
exactly what claim C7 is about. -/
structure ReqOptions where
  method : Option String := none
  headers : Option ReqHeaders := none
  body : Option ReqBody := none
  skipAuth : Bool := false
deriving DecidableEq

/-- `_addAuthHeaders(options)` (lines 352-365): attach
`Authorization: Bearer <access>` when the in-memory user carries an access
token, and a JSON content type when the body is a string.  The source never
consults `options.skipAuth`. -/
def addAuthHeaders (user : Option User) (o : ReqOptions) : ReqOptions :=
  let o1 : ReqOptions :=
    match user with
    | some u =>
        match u.tokens with
        | some t =>
            if truthyS t.access then
              { o with headers := some { o.headers.getD {} with
                  authorization := some ("Bearer " ++ t.access.getD "") } }
            else o
        | none => o
    | none => o
  match o1.body with
  | some (.strB s) =>
      -- `options.body && typeof options.body === "string"`: an empty
      -- string body is falsy and skips the branch
      if s.length != 0 then
        { o1 with headers := some { o1.headers.getD {} with
            contentType := some "application/json" } }
      else o1
  | _ => o1

/-- An HTTP response as `_http.request` interprets it: status, whether the
content type declares JSON, the parsed JSON error body (`none` = the body
did not parse), the raw text body, and an opaque parsed success payload. -/
structure HttpResp where
  status : Nat
  ctJson : Bool := true
  errJson : Option ErrObj := none
  textBody : String := ""
  payload : String := ""
deriving DecidableEq

/-- A resolved response body: `null` (204), parsed JSON, or raw text. -/
inductive RespBody where
  | nullB
  | jsonB (s : String)
  | textB (s : String)
deriving DecidableEq

/-- `_handleResponse` (lines 367-384) on a response that passed the
ok/204 guard.  (A parse failure of a successful JSON body would propagate
as a rejection; no claim touches that path and it is not modelled.) -/
def handleResponse (r : HttpResp) : RespBody :=
  if r.status = 204 then .nullB
  else if r.ctJson then .jsonB r.payload
  else .textB r.textBody

/-- `_handleError` (lines 386-397): parse the error body (JSON when
declared, else text wrapped as `{ message: text }`) and throw the
classified error from `_createHttpError` = `AuthError.fromHTTP`.  A
declared-JSON body that fails to parse rejects with the parse error
itself — there is no catch around `response.json()` here. -/
def handleError (r : HttpResp) : JsError :=
  if r.ctJson then
    match r.errJson with
    | some body =>
        match AuthError.fromHTTP r.status (some body) with
        | .ok a => .auth a
        | .error m => .typeThrow m
    | none => .jsonParse
  else
    match AuthError.fromHTTP r.status (some { message := some r.textBody }) with
    | .ok a => .auth a
    | .error m => .typeThrow m

/-- Second `.then` of `_http.request`: `response.ok || status === 204`
resolves the body, anything else goes through `_handleError`. -/
def finishStage (r : HttpResp) : Except JsError RespBody :=
  if respOk r.status || r.status == 204 then .ok (handleResponse r)
  else .error (handleError r)

structure RequestResult where
  outcome : Except JsError RespBody
  fetches : Nat
  refreshInvoked : Bool
deriving DecidableEq

/-- `Bearer ${user.tokens.access}` on the post-refresh user (JS template
literal: an absent value prints as "undefined"). -/
def bearerOf (u : Option User) : String :=
  "Bearer " ++ (((u.bind (·.tokens)).bind (·.access)).getD "undefined")

/-- `_http.request(url, options)` (lines 399-432) as a function of the
behavior state, the first response `r1`, the outcome the refresh promise
settles with (read only when `r1` is a 401), and the response `r2` to the
retried call (read only when the retry is issued).  The request context
(`_createRequestContext`) is write-only logging data and is elided. -/
def httpRequest (st : BehaviorState) (opts : ReqOptions) (r1 : HttpResp)
    (refreshResult : Except JsError UserData) (r2 : HttpResp) : RequestResult :=
  let opts1 := addAuthHeaders st.loggedInUser opts
  if r1.status = 401 then
    match refreshResult with
    | .error e => { outcome := .error e, fetches := 1, refreshInvoked := true }
    | .ok u =>
        match opts1.headers with
        | none =>
            -- `options.headers["Authorization"] = ...` on an absent headers
            -- object throws before the retry fetch is issued
            { outcome := .error (.typeThrow "cannot set Authorization of undefined"),
              fetches := 1, refreshInvoked := true }
        | some h =>
            let newUser := (handleLoginSuccess st u false).loggedInUser
            let _opts2 := { opts1 with headers := some { h with
              authorization := some (bearerOf newUser) } }
            { outcome := finishStage r2, fetches := 2, refreshInvoked := true }
  else
    { outcome := finishStage r1, fetches := 1, refreshInvoked := false }

/-! ## The built API (`api.fetch`, lines 273-333) -/

/-- The component surface the API reflects state onto. -/
structure Component where
  loading : Bool := false
  lastError : Option JsError := none
  lastResponse : Option RespBody := none
  fired : List String := []
deriving DecidableEq

/-- The constructor options of the SERVICE_NOT_FOUND configuration error.
(The quote characters around the interpolated names in the source messages
are elided.) -/
def serviceNotFoundOpts (serviceName : String) : AuthErrorOptions :=
  { code := some "SERVICE_NOT_FOUND",
    message := some ("Service " ++ serviceName ++ " is not configured"),
    status := some 500, retry := some false }

/-- The constructor options of the ENVIRONMENT_NOT_FOUND configuration
error. -/
def envNotFoundOpts (env serviceName : String) : AuthErrorOptions :=
  { code := some "ENVIRONMENT_NOT_FOUND",
    message := some ("Environment " ++ env ++ " is not configured for service "
      ++ serviceName),
    status := some 500, retry := some false }

/-- Resolution of the base URL inside `api.fetch` (lines 274-295): missing
service throws SERVICE_NOT_FOUND, missing/falsy `base[env]` throws
ENVIRONMENT_NOT_FOUND, both synchronously. -/
def resolveService (cfg : Config) (serviceName : String) : Except JsError String :=
  match cfg.services with
  | none => .error (.typeThrow "cannot read properties of undefined")
  | some svcs =>
      match svcs.lookup serviceName with
      | none => .error (throwNew (serviceNotFoundOpts serviceName))
      | some svc =>
          match resolveBase svc cfg.env with
          | none => .error (throwNew (envNotFoundOpts cfg.env serviceName))
          | some u => .ok u

structure ApiFetchResult where
  comp : Option Component
  outcome : Except JsError RespBody
  requests : Nat
deriving DecidableEq

/-- `api.fetch(serviceName, path, options)` (lines 273-333) as a function
of the outcome `reqResult` that the delegated `_http.request` call settles
with.  Body stringification and the login-shaped-response side effect on the
behavior state are elided (no claim reads them); `requests` counts calls
into `_http.request`. -/
def apiFetch (cfg : Config) (comp : Option Component) (serviceName path : String)
    (reqResult : Except JsError RespBody) : ApiFetchResult :=
  match resolveService cfg serviceName with
  | .error e => { comp := comp, outcome := .error e, requests := 0 }
  | .ok baseUrl =>
      let _url := baseUrl ++ path
      let comp1 := comp.map (fun c => { c with loading := true, lastError := none })
      match reqResult with
      | .ok r =>
          let settle := fun (c : Component) =>
            { c with loading := false, lastResponse := some r,
                     fired := c.fired ++ ["response"] }
          { comp := comp1.map settle, outcome := .ok r, requests := 1 }
      | .error e =>
          let settle := fun (c : Component) =>
            { c with loading := false, lastError := some e,
                     fired := c.fired ++ ["error"] }
          { comp := comp1.map settle, outcome := .error e, requests := 1 }

/-! ## Supporting lemmas on the refresh coordinator -/

/-- Joining: while `_refreshPromise` is non-null, `_refreshToken` returns
that same promise without touching the state. -/
theorem callRefresh_joined (cfg : Option Config) (s : BehaviorState) (pid : Nat)
    (h : s.refreshPromise = some pid) :
    callRefreshToken cfg s = (s, .joined pid) := by
  unfold callRefreshToken
  rw [h]

/-- Starting: on an idle handle with a persisted refresh token and a
resolvable configuration, `_refreshToken` issues exactly one transport call
and pends the fresh promise. -/
theorem callRefresh_start (cfg : Option Config) (s : BehaviorState) (url : String)
    (hidle : s.refreshPromise = none)
    (htok : hasRefreshTok (s.storedUser.getD {}) = true)
    (hurl : resolveRefreshURL cfg = .ok url) :
    callRefreshToken cfg s =
      ({ s with refreshPromise := some s.nextPid, nextPid := s.nextPid + 1,
                refreshFetchCount := s.refreshFetchCount + 1 },
       .started s.nextPid) := by
  unfold callRefreshToken
  rw [hidle]
  simp [htok, hurl]

/-- A burst of callers arriving while the handle is pending all join it. -/
theorem runConcurrent_joined (cfg : Option Config) (pid : Nat) :
    ∀ (n : Nat) (s : BehaviorState), s.refreshPromise = some pid →
      runConcurrentRefresh cfg n s = (s, List.replicate n (.joined pid))
  | 0, s, _ => by simp [runConcurrentRefresh]
  | n + 1, s, h => by
      have hc := callRefresh_joined cfg s pid h
      have ih := runConcurrent_joined cfg pid n s h
      simp [runConcurrentRefresh, hc, ih, List.replicate_succ]

/-- A call on an idle handle never reuses a settled promise. -/
theorem callRefresh_not_joined (cfg : Option Config) (s : BehaviorState)
    (h : s.refreshPromise = none) :
    RefreshCallResult.isJoined (callRefreshToken cfg s).2 = false := by
  unfold callRefreshToken
  rw [h]
  by_cases ht : hasRefreshTok (s.storedUser.getD {}) = true
  · cases hr : resolveRefreshURL cfg <;>
      simp [ht, hr, RefreshCallResult.isJoined]
  · simp [ht, RefreshCallResult.isJoined]

/-- The non-2xx branch of the refresh chain always rejects with the
status-only TokenRefreshFailed error: the inner `.catch` also catches what
the `.then` handler threw, so the parsed server body never survives. -/
theorem refreshFailBranch_eq (status : Nat) (ej : Option ServerBody) :
    refreshFailBranch status ej =
      .error (tokenRefreshThrow (some { status := some status })) := by
  cases ej <;> rfl

/-! ## Claim theorems: the refresh coordinator -/

/-- C1: for every burst of `n ≥ 2` concurrent calls to `_refreshToken`
starting from an idle handle with a persisted refresh token and a
resolvable configuration, exactly one transport-level refresh call is
issued; the first caller starts promise `s.nextPid` and every later caller
joins that same promise, which is still the pending handle afterwards, so
all callers settle with the outcome of that single call.  Moreover any call
made while a handle `pid` is pending returns that same promise and changes
nothing. -/
theorem c1_refresh_dedup (cfg : Option Config) (s s2 : BehaviorState)
    (n pid : Nat) (url : String)
    (hidle : s.refreshPromise = none)
    (htok : hasRefreshTok (s.storedUser.getD {}) = true)
    (hurl : resolveRefreshURL cfg = .ok url)
    (hn : 2 ≤ n)
    (hpend : s2.refreshPromise = some pid) :
    (runConcurrentRefresh cfg n s).2 =
        .started s.nextPid :: List.replicate (n - 1) (.joined s.nextPid) ∧
    (runConcurrentRefresh cfg n s).1.refreshFetchCount = s.refreshFetchCount + 1 ∧
    (runConcurrentRefresh cfg n s).1.refreshPromise = some s.nextPid ∧
    callRefreshToken cfg s2 = (s2, .joined pid) := by
  obtain ⟨m, rfl⟩ : ∃ m, n = m + 1 := ⟨n - 1, by omega⟩
  have hc := callRefresh_start cfg s url hidle htok hurl
  have hrest := runConcurrent_joined cfg s.nextPid m
    { s with refreshPromise := some s.nextPid, nextPid := s.nextPid + 1,
             refreshFetchCount := s.refreshFetchCount + 1 } rfl
  refine ⟨?_, ?_, ?_, callRefresh_joined cfg s2 pid hpend⟩ <;>
    simp [runConcurrentRefresh, hc, hrest]

/-- C2: whatever outcome the refresh transport settles with, the chain
clears `_refreshPromise` in its `.finally` callback before the promise the
callers hold observably settles (visible in the trace ordering), so a call
arriving afterwards can never rejoin the settled promise. -/
theorem c2_handle_cleared_before_settle (s : BehaviorState) (f : FetchOutcome)
    (cfg : Option Config) :
    (settleRefresh s f).state.refreshPromise = none ∧
    (settleRefresh s f).trace =
      (match (settleRefresh s f).outcome with
        | .error _ => [RefreshEvent.sessionCleared]
        | .ok _ => []) ++
        [RefreshEvent.handleCleared, RefreshEvent.settled (settleRefresh s f).outcome] ∧
    RefreshCallResult.isJoined (callRefreshToken cfg (settleRefresh s f).state).2 = false := by
  refine ⟨rfl, ?_, callRefresh_not_joined cfg _ rfl⟩
  cases f with
  | netError m => rfl
  | resp r =>
      by_cases hok : respOk r.status = true
      · cases h : r.okJson with
        | none => simp [settleRefresh, hok, h]
        | some u => simp [settleRefresh, hok, h]
      · simp [settleRefresh, hok, refreshFailBranch_eq]

/-- C5: with no refresh in flight and no persisted refresh token,
`_refreshToken` rejects at once with the plain "No refresh token available"
error — non-retryable, state untouched, no transport call issued. -/
theorem c5_no_refresh_token (cfg : Option Config) (s : BehaviorState)
    (hidle : s.refreshPromise = none)
    (htok : hasRefreshTok (s.storedUser.getD {}) = false) :
    callRefreshToken cfg s = (s, .rejected (.plain "No refresh token available")) ∧
    (callRefreshToken cfg s).1.refreshFetchCount = s.refreshFetchCount ∧
    JsError.retryable (.plain "No refresh token available") = false := by
  have h : callRefreshToken cfg s =
      (s, .rejected (.plain "No refresh token available")) := by
    unfold callRefreshToken
    rw [hidle]
    simp [htok]
  exact ⟨h, by rw [h], rfl⟩

/-- C5 witness: the empty behavior state with no configuration. -/
theorem c5_no_refresh_token_witness :
    callRefreshToken none {} = ({}, .rejected (.plain "No refresh token available")) ∧
    (callRefreshToken none {}).1.refreshFetchCount = ({} : BehaviorState).refreshFetchCount ∧
    JsError.retryable (.plain "No refresh token available") = false :=
  c5_no_refresh_token none {} rfl rfl

/-- C1 witness service: a development base URL. -/
def c1Svc : ServiceCfg :=
  { base := some [("development", "http://localhost:5100/api")] }

/-- C1 witness configuration: one service with a development base URL. -/
def c1Cfg : Config :=
  { env := "development", services := some [("bapi", c1Svc)] }

/-- C1 witness state: idle handle, persisted refresh token. -/
def c1State : BehaviorState :=
  { storedUser := some { tokens := some { refresh := some "valid-refresh-token" } } }

/-- C1 witness: three concurrent refresh calls issue one transport call and
share promise 0; a call under a pending handle 7 joins it. -/
theorem c1_refresh_dedup_witness :
    (runConcurrentRefresh (some c1Cfg) 3 c1State).2 =
        .started c1State.nextPid ::
          List.replicate (3 - 1) (.joined c1State.nextPid) ∧
    (runConcurrentRefresh (some c1Cfg) 3 c1State).1.refreshFetchCount =
        c1State.refreshFetchCount + 1 ∧
    (runConcurrentRefresh (some c1Cfg) 3 c1State).1.refreshPromise =
        some c1State.nextPid ∧
    callRefreshToken (some c1Cfg) { refreshPromise := some 7 } =
        ({ refreshPromise := some 7 }, .joined 7) :=
  c1_refresh_dedup (some c1Cfg) c1State { refreshPromise := some 7 } 3 7
    "http://localhost:5100/api/user/refresh" rfl rfl rfl (by decide) rfl

/-- The state in which the C4 failing refresh settles: a pending handle and
a persisted refresh token. -/
def c4State : BehaviorState :=
  { storedUser := some { tokens := some { refresh := some "expired-refresh-token" } },
    refreshPromise := some 0, nextPid := 1, refreshFetchCount := 1 }

/-- The C4 failing transport response: 401 with the JSON body
`{ message: "refresh_token_expired" }` — exactly the body the taxonomy
inspects for the `expired` sub-classification. -/
def c4Resp : RefreshResp :=
  { status := 401, errJson := some { message := some "refresh_token_expired" } }

/-- The error the code actually rejects with at the C4 failing input:
status-only, so the `state` sub-classification degenerates to `failed`. -/
def c4ActualErr : AuthError :=
  { code := "TOKEN_REFRESH_FAILED", message := "Token refresh failed",
    status := some 401, retry := false, state := some "failed" }

/-- The wrapper the `.then` handler builds (and the `.catch` then drops):
had it survived, the taxonomy would classify its state as `expired`. -/
def c4IntendedWrapper : ErrObj :=
  { status := some 401, response := some { message := some "refresh_token_expired" } }

/-- C4 (code bug): evaluated at a refresh transport failure whose server
body reports `refresh_token_expired`, the chain rejects with the status-only
TokenRefreshFailed error — the parsed body was dropped by the misplaced
`.catch` — so `state` is `failed` where the spec requires `expired` (the
persisted session is cleared as specified).  A thrown transport error is
rethrown unclassified. -/
theorem c4_refresh_failure_eval :
    (settleRefresh c4State (.resp c4Resp)).outcome = .error (.auth c4ActualErr) ∧
    (settleRefresh c4State (.resp c4Resp)).state.storedUser = none ∧
    AuthError.extractTokenState (some c4IntendedWrapper) = "expired" ∧
    (settleRefresh c4State (.netError "connection refused")).outcome =
      .error (.transport "connection refused") :=
  ⟨rfl, rfl, rfl, rfl⟩

/-! ## Claim theorems: the error taxonomy -/

/-- C6: for every status and server body, `fromHTTP` succeeds and returns
exactly the classification demanded by the spec mapping `specFromStatus`
(codes and retry flags per status, SESSION_EXPIRED on the expired-access
signal, server-supplied message preferred over the fallback text). -/
theorem c6_fromHTTP_classification (status : Nat) (body : Option ErrObj) :
    AuthError.fromHTTP status body = Except.ok (specFromStatus status body) :=
  fromHTTP_eq status body

/-- The message the spec mapping carries is always nonempty. -/
theorem specFromStatus_message_len (status : Nat) (b : Option ErrObj) :
    (specFromStatus status b).message.length ≠ 0 := by
  unfold specFromStatus
  by_cases h401 : status = 401
  · subst h401
    by_cases hsig : AuthError.signalsExpired b = true
    · obtain ⟨s, hs, hlen⟩ := signalsExpired_extract b hsig
      simp [hsig, hs, hlen]
    · simp only [hsig, if_pos rfl, Bool.false_eq_true, if_false]
      exact extract_getD_len b _ (by decide)
  · by_cases h403 : status = 403
    · subst h403
      simp only [if_neg h401, if_pos rfl]
      exact extract_getD_len b _ (by decide)
    · by_cases h400 : status = 400
      · subst h400
        simp only [if_neg h401, if_neg h403, if_pos rfl]
        exact extract_getD_len b _ (http_fallback_len 400)
      · by_cases h404 : status = 404
        · subst h404
          simp only [if_neg h401, if_neg h403, if_neg h400, if_pos rfl]
          exact extract_getD_len b _ (http_fallback_len 404)
        · by_cases h500 : 500 ≤ status
          · simp only [if_neg h401, if_neg h403, if_neg h400, if_neg h404,
              if_pos h500]
            exact extract_getD_len b _ (http_fallback_len status)
          · simp only [if_neg h401, if_neg h403, if_neg h400, if_neg h404,
              if_neg h500]
            exact extract_getD_len b _ (http_fallback_len status)

/-- C10: both classification entry points are total — for every status and
every body (absent, empty, or with empty message fields) the constructor
validation passes, because the message that reaches it is always nonempty;
the returned error carries its boolean retry flag (false and code
TOKEN_REFRESH_FAILED for the refresh-failure constructor). -/
theorem c10_taxonomy_total (status : Nat) (b e : Option ErrObj) :
    (∃ a, AuthError.fromHTTP status b = Except.ok a ∧ a.message.length ≠ 0) ∧
    (∃ a, AuthError.TokenRefreshFailed e = Except.ok a ∧ a.message.length ≠ 0 ∧
      a.retry = false ∧ a.code = "TOKEN_REFRESH_FAILED") := by
  constructor
  · exact ⟨specFromStatus status b, fromHTTP_eq status b,
      specFromStatus_message_len status b⟩
  · exact ⟨_, tokenRefreshFailed_eq e,
      extract_getD_len e "Token refresh failed" (by decide), rfl, rfl⟩

/-! ## Claim theorems: auth headers (C7) -/

/-- The C7 failing user: an in-memory session with access token `tok`. -/
def c7User : User := { tokens := some { access := some "tok" } }

/-- C7 (code bug): `_addAuthHeaders` never reads `options.skipAuth` — with
`skipAuth: true` and a session present, the Authorization header is attached
all the same (identically to `skipAuth: false`); without a session no header
is attached. -/
theorem c7_skipAuth_ignored :
    (addAuthHeaders (some c7User) { skipAuth := true }).headers =
      some { authorization := some "Bearer tok" } ∧
    (addAuthHeaders (some c7User) { skipAuth := false }).headers =
      some { authorization := some "Bearer tok" } ∧
    (addAuthHeaders none { skipAuth := false }).headers = none :=
  ⟨rfl, rfl, rfl⟩

/-! ## Claim theorems: the request core (C3) -/

/-- C3 (amended): when the first response is a 401, the refresh is invoked
and the call is re-issued at most once; a 401 on the retried call — for
every error body — is surfaced as an error through `_handleError` and never
retried again, and that surfaced error is the taxonomy-classified one both
when a declared-JSON body parses and when the body is raw text (wrapped as
`{ message: text }`); a declared-JSON body that fails to parse surfaces the
parse rejection instead (see the counterexample).  A refresh failure
propagates unchanged with no retry (one fetch only). -/
theorem c3_retry_once (st : BehaviorState) (opts : ReqOptions)
    (r1 r2 : HttpResp) (rr : Except JsError UserData)
    (h1 : r1.status = 401) (h2 : r2.status = 401) :
    (httpRequest st opts r1 rr r2).refreshInvoked = true ∧
    (httpRequest st opts r1 rr r2).fetches ≤ 2 ∧
    (httpRequest st opts r1 rr r2).fetches =
      (match rr, (addAuthHeaders st.loggedInUser opts).headers with
       | .error _, _ => 1
       | .ok _, none => 1
       | .ok _, some _ => 2) ∧
    (httpRequest st opts r1 rr r2).outcome =
      (match rr, (addAuthHeaders st.loggedInUser opts).headers with
       | .error e, _ => .error e
       | .ok _, none => .error (.typeThrow "cannot set Authorization of undefined")
       | .ok _, some _ => .error (handleError r2)) ∧
    handleError r2 =
      (if r2.ctJson then
        (match r2.errJson with
         | some body => .auth (specFromStatus r2.status (some body))
         | none => .jsonParse)
       else .auth (specFromStatus r2.status (some { message := some r2.textBody }))) := by
  have hclass : handleError r2 =
      (if r2.ctJson then
        (match r2.errJson with
         | some body => .auth (specFromStatus r2.status (some body))
         | none => .jsonParse)
       else .auth (specFromStatus r2.status (some { message := some r2.textBody }))) := by
    unfold handleError
    by_cases hct : r2.ctJson = true
    · cases hej : r2.errJson with
      | none => simp [hct, hej]
      | some body => simp [hct, hej, fromHTTP_eq]
    · simp [hct, fromHTTP_eq]
  have hfin : finishStage r2 = .error (handleError r2) := by
    simp [finishStage, h2, respOk]
  cases rr with
  | error e => simp [httpRequest, h1, hfin, hclass]
  | ok u =>
      cases hh : (addAuthHeaders st.loggedInUser opts).headers with
      | none => simp [httpRequest, h1, hh, hfin, hclass]
      | some hdr => simp [httpRequest, h1, hh, hfin, hclass]

/-- C3 witness user: an in-memory session with an access token, so the
retried call has a headers object to write into. -/
def c3User : User := { tokens := some { access := some "tok" } }

def c3St : BehaviorState := { loggedInUser := some c3User }

/-- C3 witness refresh payload: the fresh token pair. -/
def c3UD : UserData :=
  { tokens := { access := some "new-access", refresh := some "new-refresh" } }

def c3R1 : HttpResp := { status := 401 }

/-- The retried 401 whose JSON body parses. -/
def c3R2 : HttpResp :=
  { status := 401, errJson := some { message := some "still unauthorized" } }

/-- C3 witness: first response 401, refresh succeeds, retried call is a 401
with a parsed body — two fetches, classified rejection. -/
theorem c3_retry_once_witness :
    (httpRequest c3St {} c3R1 (.ok c3UD) c3R2).refreshInvoked = true ∧
    (httpRequest c3St {} c3R1 (.ok c3UD) c3R2).fetches ≤ 2 ∧
    (httpRequest c3St {} c3R1 (.ok c3UD) c3R2).fetches =
      (match (.ok c3UD : Except JsError UserData),
             (addAuthHeaders c3St.loggedInUser {}).headers with
       | .error _, _ => 1
       | .ok _, none => 1
       | .ok _, some _ => 2) ∧
    (httpRequest c3St {} c3R1 (.ok c3UD) c3R2).outcome =
      (match (.ok c3UD : Except JsError UserData),
             (addAuthHeaders c3St.loggedInUser {}).headers with
       | .error e, _ => .error e
       | .ok _, none => .error (.typeThrow "cannot set Authorization of undefined")
       | .ok _, some _ => .error (handleError c3R2)) ∧
    handleError c3R2 =
      (if c3R2.ctJson then
        (match c3R2.errJson with
         | some body => .auth (specFromStatus c3R2.status (some body))
         | none => .jsonParse)
       else .auth (specFromStatus c3R2.status (some { message := some c3R2.textBody }))) :=
  c3_retry_once c3St {} c3R1 c3R2 (.ok c3UD) rfl rfl

/-- Bool test: is the outcome a thrown AuthError (a classified error)? -/
def isClassified : Except JsError RespBody → Bool
  | .error (.auth _) => true
  | _ => false

/-- The retried 401 whose declared-JSON body does not parse. -/
def c3R2bad : HttpResp := { status := 401, ctJson := true, errJson := none }

/-- C3 counterexample: on a retried 401 whose declared-JSON error body is
malformed, the surfaced rejection is the JSON-parse error, not a
taxonomy-classified error — the claim as stated (classified error on every
retried 401) is false at this input. -/
theorem c3_retry_once_cex :
    (httpRequest c3St {} c3R1 (.ok c3UD) c3R2bad).fetches = 2 ∧
    (httpRequest c3St {} c3R1 (.ok c3UD) c3R2bad).refreshInvoked = true ∧
    (httpRequest c3St {} c3R1 (.ok c3UD) c3R2bad).outcome = .error .jsonParse ∧
    isClassified (httpRequest c3St {} c3R1 (.ok c3UD) c3R2bad).outcome = false :=
  ⟨rfl, rfl, rfl, rfl⟩

/-! ## Claim theorems: the built API (C8, C9) -/

/-- The classified SERVICE_NOT_FOUND error value. -/
def serviceNotFoundErr (serviceName : String) : AuthError :=
  { code := "SERVICE_NOT_FOUND",
    message := "Service " ++ serviceName ++ " is not configured",
    status := some 500, retry := false }

/-- The classified ENVIRONMENT_NOT_FOUND error value. -/
def envNotFoundErr (env serviceName : String) : AuthError :=
  { code := "ENVIRONMENT_NOT_FOUND",
    message := "Environment " ++ env ++ " is not configured for service "
      ++ serviceName,
    status := some 500, retry := false }

theorem append_len_ne (a b : String) (ha : a.length ≠ 0) :
    (a ++ b).length ≠ 0 := by
  rw [String.length_append]
  omega

theorem throwNew_serviceNotFound (name : String) :
    throwNew (serviceNotFoundOpts name) = .auth (serviceNotFoundErr name) := by
  unfold throwNew serviceNotFoundOpts serviceNotFoundErr
  rw [make_ok _ _ _ _ (by decide) (append_len_ne _ _ (append_len_ne _ _ (by decide)))]
  rfl

theorem throwNew_envNotFound (env name : String) :
    throwNew (envNotFoundOpts env name) = .auth (envNotFoundErr env name) := by
  unfold throwNew envNotFoundOpts envNotFoundErr
  rw [make_ok _ _ _ _ (by decide)
    (append_len_ne _ _ (append_len_ne _ _ (append_len_ne _ _ (by decide))))]
  rfl

/-- C8: a `fetch` naming a service absent from the configuration throws the
non-retryable SERVICE_NOT_FOUND configuration error, and a configured
service with no base URL for the active environment throws the
non-retryable ENVIRONMENT_NOT_FOUND configuration error — both from the
synchronous resolution step, before any call into the request core
(`requests = 0`) and without touching the component. -/
theorem c8_config_errors (cfg cfg2 : Config) (comp : Option Component)
    (name name2 path : String) (rr : Except JsError RespBody)
    (svcs svcs2 : List (String × ServiceCfg)) (svc : ServiceCfg)
    (hs : cfg.services = some svcs) (hmiss : svcs.lookup name = none)
    (hs2 : cfg2.services = some svcs2) (hfind : svcs2.lookup name2 = some svc)
    (henv : resolveBase svc cfg2.env = none) :
    resolveService cfg name = .error (.auth (serviceNotFoundErr name)) ∧
    apiFetch cfg comp name path rr =
      { comp := comp, outcome := .error (.auth (serviceNotFoundErr name)),
        requests := 0 } ∧
    (serviceNotFoundErr name).retry = false ∧
    resolveService cfg2 name2 = .error (.auth (envNotFoundErr cfg2.env name2)) ∧
    apiFetch cfg2 comp name2 path rr =
      { comp := comp, outcome := .error (.auth (envNotFoundErr cfg2.env name2)),
        requests := 0 } ∧
    (envNotFoundErr cfg2.env name2).retry = false := by
  have hr1 : resolveService cfg name = .error (.auth (serviceNotFoundErr name)) := by
    unfold resolveService
    rw [hs]
    simp [hmiss, throwNew_serviceNotFound]
  have hr2 : resolveService cfg2 name2 =
      .error (.auth (envNotFoundErr cfg2.env name2)) := by
    unfold resolveService
    rw [hs2]
    simp [hfind, henv, throwNew_envNotFound]
  refine ⟨hr1, ?_, rfl, hr2, ?_, rfl⟩
  · unfold apiFetch
    rw [hr1]
  · unfold apiFetch
    rw [hr2]

/-- C8 witness configurations: an empty service table, and a service with
no base entry for the active environment. -/
def c8MissCfg : Config := { env := "development", services := some [] }

def c8Svc : ServiceCfg := { base := some [] }

def c8EnvCfg : Config :=
  { env := "development", services := some [("bapi", c8Svc)] }

/-- C8 witness: both configuration errors at concrete inputs. -/
theorem c8_config_errors_witness :
    resolveService c8MissCfg "missing" =
      .error (.auth (serviceNotFoundErr "missing")) ∧
    apiFetch c8MissCfg none "missing" "/x" (.ok .nullB) =
      { comp := none, outcome := .error (.auth (serviceNotFoundErr "missing")),
        requests := 0 } ∧
    (serviceNotFoundErr "missing").retry = false ∧
    resolveService c8EnvCfg "bapi" =
      .error (.auth (envNotFoundErr c8EnvCfg.env "bapi")) ∧
    apiFetch c8EnvCfg none "bapi" "/x" (.ok .nullB) =
      { comp := none, outcome := .error (.auth (envNotFoundErr c8EnvCfg.env "bapi")),
        requests := 0 } ∧
    (envNotFoundErr c8EnvCfg.env "bapi").retry = false :=
  c8_config_errors c8MissCfg c8EnvCfg none "missing" "bapi" "/x" (.ok .nullB)
    [] [("bapi", c8Svc)] c8Svc rfl rfl rfl rfl rfl

/-- The component state after a successful call settles: loading off,
`lastResponse` set, `lastError` null (it was cleared when the call
started), a `response` notification fired. -/
def respondedComp (c : Component) (r : RespBody) : Component :=
  { c with loading := false, lastError := none, lastResponse := some r,
           fired := c.fired ++ ["response"] }

/-- The component state after a failed call settles: loading off,
`lastError` set, a `error` notification fired; `lastResponse` keeps its
previous value. -/
def erroredComp (c : Component) (e : JsError) : Component :=
  { c with loading := false, lastError := some e,
           fired := c.fired ++ ["error"] }

/-- C9 (amended): for every call through the built fetch with a component,
once the service and environment resolve, the component ends in a terminal
state with `loading = false` and, on success, `lastResponse` set with
`lastError` null, or, on failure, `lastError` set (with `lastResponse`
keeping its prior value); a configuration error is thrown synchronously
before any component state is touched, so it never leaves `loading = true`
but also never sets `lastError` (see the counterexample). -/
theorem c9_component_terminal (cfg cfg2 : Config) (comp : Component)
    (name name2 path : String) (rr : Except JsError RespBody)
    (base : String) (e : JsError)
    (hres : resolveService cfg name = .ok base)
    (hres2 : resolveService cfg2 name2 = .error e) :
    apiFetch cfg (some comp) name path rr =
      (match rr with
       | .ok r =>
           { comp := some (respondedComp comp r), outcome := .ok r, requests := 1 }
       | .error e2 =>
           { comp := some (erroredComp comp e2), outcome := .error e2,
             requests := 1 }) ∧
    apiFetch cfg2 (some comp) name2 path rr =
      { comp := some comp, outcome := .error e, requests := 0 } := by
  constructor
  · unfold apiFetch
    rw [hres]
    cases rr with
    | ok r => simp [respondedComp]
    | error e2 => simp [erroredComp]
  · unfold apiFetch
    rw [hres2]

/-- C9 witness service and configurations. -/
def c9Svc : ServiceCfg :=
  { base := some [("development", "https://api.example.test")] }

def c9OkCfg : Config :=
  { env := "development", services := some [("bapi", c9Svc)] }

def c9BadCfg : Config := { env := "development", services := some [] }

def c9Comp : Component := {}

/-- C9 witness: a resolved successful call reflects onto the component; a
configuration error leaves it untouched. -/
theorem c9_component_terminal_witness :
    apiFetch c9OkCfg (some c9Comp) "bapi" "/user" (.ok .nullB) =
      { comp := some (respondedComp c9Comp .nullB), outcome := .ok .nullB,
        requests := 1 } ∧
    apiFetch c9BadCfg (some c9Comp) "missing" "/user" (.ok .nullB) =
      { comp := some c9Comp,
        outcome := .error (.auth (serviceNotFoundErr "missing")), requests := 0 } :=
  c9_component_terminal c9OkCfg c9BadCfg c9Comp "bapi" "missing" "/user"
    (.ok .nullB) "https://api.example.test" (.auth (serviceNotFoundErr "missing"))
    rfl rfl

/-- C9 counterexample: a call that fails with a configuration error leaves
the supplied component exactly as it was — in particular `lastError` stays
null — so the claim as stated (after any failure, including configuration
errors, `lastError` is set) is false at this input. -/
theorem c9_component_terminal_cex :
    (apiFetch c9BadCfg (some c9Comp) "missing" "/x" (.ok .nullB)).comp =
      some c9Comp ∧
    c9Comp.lastError = none ∧
    c9Comp.lastResponse = none ∧
    (apiFetch c9BadCfg (some c9Comp) "missing" "/x" (.ok .nullB)).outcome =
      .error (.auth (serviceNotFoundErr "missing")) :=
  ⟨rfl, rfl, rfl, rfl⟩
